import Mathlib

/-!
Verification development for the GPS run-tracking core of the RUNSTR PWA
repository.

The embedding translates the JavaScript sources into Lean:

* `src/utils/kalmanFilter.js` — `KalmanFilter1D` and `WeightedGPSFilter`,
  modelled generically over a linear ordered field (instantiated at `ℚ` for
  concrete evaluation and at `ℝ` inside the tracker model).
* `src/utils/trajectoryPrediction.js` — `LinearRegression`,
  `MovementPatternAnalyzer`, `GPSGapFiller`, over `ℝ` (the confidence decay
  uses `Real.exp`).
* `src/services/RunTracker.js` — the tracker state machine: `addPosition`,
  `pause`, `resume`, and `calculateOptimalSamplingInterval`.

JavaScript `number` is modelled as an exact field (`ℚ`/`ℝ`); `null`/absent
values as `Option`; `Date.now()` and mutable `this` state are threaded
explicitly (`now` parameters, state-passing).  Side-effectful `emit` calls
are modelled as a returned event list.
-/

namespace Runstr

/-! ## kalmanFilter.js : KalmanFilter1D -/

/-- State of the 1-D Kalman filter (`KalmanFilter1D` in kalmanFilter.js).
Field `x` is `none` while the JS field is `null` (before first measurement). -/
structure KalmanFilter1D (α : Type) where
  Q : α
  R : α
  x : Option α
  P : α
  K : α
  deriving Repr, DecidableEq

variable {α : Type} [LinearOrderedField α]

/-- `new KalmanFilter1D({Q, R})`: `x = null`, `P = 1`, `K = 0`. -/
def KalmanFilter1D.init (q r : α) : KalmanFilter1D α :=
  ⟨q, r, none, 1, 0⟩

/-- `KalmanFilter1D.filter(measurement)`: returns the filtered value and the
updated filter state.  On the first call (`x === null`) it stores and returns
the raw measurement; afterwards it runs the predict/update step. -/
def KalmanFilter1D.filter (f : KalmanFilter1D α) (measurement : α) :
    α × KalmanFilter1D α :=
  match f.x with
  | none => (measurement, { f with x := some measurement })
  | some x0 =>
    let x_pred := x0
    let P_pred := f.P + f.Q
    let K' := P_pred / (P_pred + f.R)
    let x' := x_pred + K' * (measurement - x_pred)
    (x', { f with x := some x', P := (1 - K') * P_pred, K := K' })

/-- `KalmanFilter1D.adjustParameters(accuracy)`: `R = max(0.001, accuracy/20)`. -/
def KalmanFilter1D.adjustParameters (f : KalmanFilter1D α) (accuracy : α) :
    KalmanFilter1D α :=
  { f with R := max (1 / 1000) (accuracy / 20) }

/-- `KalmanFilter1D.reset()`: `x = null`, `P = 1`, `K = 0`. -/
def KalmanFilter1D.reset (f : KalmanFilter1D α) : KalmanFilter1D α :=
  { f with x := none, P := 1, K := 0 }

/-! ## kalmanFilter.js : WeightedGPSFilter -/

/-- One GPS reading handed to `WeightedGPSFilter.addReading`. -/
structure GPSReading (α : Type) where
  lat : α
  lon : α
  accuracy : α
  timestamp : α
  deriving Repr, DecidableEq

/-- Output of `WeightedGPSFilter.getWeightedAverage`. -/
structure WeightedPos (α : Type) where
  lat : α
  lon : α
  accuracy : α
  deriving Repr, DecidableEq

/-- `WeightedGPSFilter`: sliding window of recent readings. -/
structure WeightedGPSFilter (α : Type) where
  windowSize : Nat
  readings : List (GPSReading α)
  deriving Repr, DecidableEq

/-- `new WeightedGPSFilter(windowSize = 5)`. -/
def WeightedGPSFilter.init (α : Type) (windowSize : Nat := 5) :
    WeightedGPSFilter α :=
  ⟨windowSize, []⟩

/-- The `totalWeight` accumulator of the `forEach` loop in
`getWeightedAverage`: sum of `1 / accuracy²` over the window.  The source
performs this division unguarded. -/
def WeightedGPSFilter.totalWeight (f : WeightedGPSFilter α) : α :=
  f.readings.foldl (fun t r => t + 1 / (r.accuracy * r.accuracy)) 0

/-- The `weightedLat` accumulator of the same loop. -/
def WeightedGPSFilter.weightedLatSum (f : WeightedGPSFilter α) : α :=
  f.readings.foldl (fun t r => t + r.lat * (1 / (r.accuracy * r.accuracy))) 0

/-- The `weightedLon` accumulator of the same loop. -/
def WeightedGPSFilter.weightedLonSum (f : WeightedGPSFilter α) : α :=
  f.readings.foldl (fun t r => t + r.lon * (1 / (r.accuracy * r.accuracy))) 0

/-- `WeightedGPSFilter.getAverageAccuracy()`. -/
def WeightedGPSFilter.getAverageAccuracy (f : WeightedGPSFilter α) : α :=
  match f.readings with
  | [] => 0
  | _ => (f.readings.foldl (fun acc r => acc + r.accuracy) 0) / f.readings.length

/-- `WeightedGPSFilter.getWeightedAverage()`: `null` on an empty window,
otherwise the accuracy-weighted mean of the window. -/
def WeightedGPSFilter.getWeightedAverage (f : WeightedGPSFilter α) :
    Option (WeightedPos α) :=
  match f.readings with
  | [] => none
  | _ => some ⟨f.weightedLatSum / f.totalWeight, f.weightedLonSum / f.totalWeight,
               f.getAverageAccuracy⟩

/-- `WeightedGPSFilter.addReading(reading)`: push, trim the window to
`windowSize` (`shift()` drops the oldest reading), return the weighted
average together with the updated filter. -/
def WeightedGPSFilter.addReading (f : WeightedGPSFilter α) (r : GPSReading α) :
    WeightedGPSFilter α × Option (WeightedPos α) :=
  let rs := f.readings ++ [r]
  let rs' := if f.windowSize < rs.length then rs.tail else rs
  let f' : WeightedGPSFilter α := { f with readings := rs' }
  (f', f'.getWeightedAverage)

/-- `WeightedGPSFilter.reset()`. -/
def WeightedGPSFilter.reset (f : WeightedGPSFilter α) : WeightedGPSFilter α :=
  { f with readings := [] }

/-! ## RunTracker.js : calculateOptimalSamplingInterval

The method reads `this.activityType`, `this.calculateCurrentSpeed()`,
`this.getBatteryLevel()`, `this.distanceGoal`, `this.distance` and
`document.hidden`; the model takes these as explicit arguments.  All the
arithmetic involved is exact, so the model lives in `ℚ`. -/

/-- `ACTIVITY_TYPES` (RunDataService): run, walk, cycle. -/
inductive ActivityType where
  | run
  | walk
  | cycle
  deriving Repr, DecidableEq

/-- Base interval by activity type (ms): walk 15000, cycle 5000, run 10000. -/
def baseIntervalFor (a : ActivityType) : ℚ :=
  match a with
  | ActivityType.walk => 15000
  | ActivityType.cycle => 5000
  | ActivityType.run => 10000

/-- The speed-based adjustment stage of `calculateOptimalSamplingInterval`. -/
def speedAdjusted (base speedMps : ℚ) : ℚ :=
  if 15 < speedMps then min base 5000
  else if 8 < speedMps then min base 10000
  else if speedMps < 1 / 2 then max base 30000
  else base

/-- The battery-level adjustment stage: the source is
`if (b !== null && b < 30) i *= 1.5; else if (b !== null && b < 15) i *= 2;`
(an `else if`, translated verbatim). -/
def batteryAdjusted (i : ℚ) (batteryLevel : Option ℚ) : ℚ :=
  match batteryLevel with
  | some b => if b < 30 then i * (3 / 2) else if b < 15 then i * 2 else i
  | none => i

/-- The distance-goal adjustment stage: within 1000 m of an active goal the
interval is capped at 5000 ms. -/
def goalAdjusted (i : ℚ) (distanceGoal : Option ℚ) (distance : ℚ) : ℚ :=
  match distanceGoal with
  | some g => if g - distance < 1000 then min i 5000 else i
  | none => i

/-- The app-visibility adjustment stage: backgrounded forces the interval up
to at least 30000 ms. -/
def visibilityAdjusted (i : ℚ) (documentHidden : Bool) : ℚ :=
  if documentHidden then max i 30000 else i

/-- `RunTracker.calculateOptimalSamplingInterval()`: the staged computation
followed by the final clamp `Math.max(3000, Math.min(60000, baseInterval))`. -/
def calculateOptimalSamplingInterval (a : ActivityType) (speedMps : ℚ)
    (batteryLevel : Option ℚ) (distanceGoal : Option ℚ) (distance : ℚ)
    (documentHidden : Bool) : ℚ :=
  max 3000 (min 60000
    (visibilityAdjusted
      (goalAdjusted
        (batteryAdjusted (speedAdjusted (baseIntervalFor a) speedMps) batteryLevel)
        distanceGoal distance)
      documentHidden))

/-! ## trajectoryPrediction.js : LinearRegression -/

/-- `LinearRegression`: ordinary least squares over `(x, y)` pairs. -/
structure LinearRegression where
  slope : ℝ
  intercept : ℝ
  trained : Bool

/-- `new LinearRegression()`. -/
def LinearRegression.empty : LinearRegression := ⟨0, 0, false⟩

/-- `LinearRegression.train(data)`: no-op on fewer than 2 points, otherwise
the closed-form OLS slope/intercept (the source accumulates the four sums in
one loop; here each sum is its own fold). -/
noncomputable def LinearRegression.train (m : LinearRegression)
    (data : List (ℝ × ℝ)) : LinearRegression :=
  if data.length < 2 then m
  else
    let n : ℝ := data.length
    let sumX := data.foldl (fun s p => s + p.1) 0
    let sumY := data.foldl (fun s p => s + p.2) 0
    let sumXY := data.foldl (fun s p => s + p.1 * p.2) 0
    let sumXX := data.foldl (fun s p => s + p.1 * p.1) 0
    let slope := (n * sumXY - sumX * sumY) / (n * sumXX - sumX * sumX)
    ⟨slope, (sumY - slope * sumX) / n, true⟩

/-- `LinearRegression.predict(x)`: `null` until trained. -/
noncomputable def LinearRegression.predict (m : LinearRegression) (x : ℝ) :
    Option ℝ :=
  if m.trained then some (m.slope * x + m.intercept) else none

/-! ## trajectoryPrediction.js : MovementPatternAnalyzer -/

/-- One point of the analyzer history: `{lat, lon, timestamp, speed, heading}`
(`speed`/`heading` may be `undefined`). -/
structure TrajPoint where
  lat : ℝ
  lon : ℝ
  timestamp : ℝ
  speed : Option ℝ
  heading : Option ℝ

/-- An entry of `velocityHistory`/`accelerationHistory`: `{lat, lon, timestamp}`. -/
structure VelEntry where
  lat : ℝ
  lon : ℝ
  timestamp : ℝ

/-- `MovementPatternAnalyzer` state. -/
structure MovementPatternAnalyzer where
  historySize : Nat
  positionHistory : List TrajPoint
  velocityHistory : List VelEntry
  accelerationHistory : List VelEntry
  latModel : LinearRegression
  lonModel : LinearRegression
  speedModel : LinearRegression
  headingModel : LinearRegression

/-- `new MovementPatternAnalyzer(historySize = 20)`. -/
def MovementPatternAnalyzer.empty (historySize : Nat := 20) :
    MovementPatternAnalyzer :=
  ⟨historySize, [], [], [], LinearRegression.empty, LinearRegression.empty,
   LinearRegression.empty, LinearRegression.empty⟩

/-- `updateVelocityAndAcceleration()`: derives a velocity entry from the last
two history points (when `dt > 0`) and an acceleration entry from the last
two velocity entries (when `accDt > 0`), each list trimmed to `historySize`. -/
noncomputable def MovementPatternAnalyzer.updateVelocityAndAcceleration
    (m : MovementPatternAnalyzer) : MovementPatternAnalyzer :=
  match m.positionHistory.reverse with
  | current :: previous :: _ =>
    let dt := (current.timestamp - previous.timestamp) / 1000
    if dt ≤ 0 then m
    else
      let v : VelEntry := ⟨(current.lat - previous.lat) / dt,
                           (current.lon - previous.lon) / dt, current.timestamp⟩
      let vh0 := m.velocityHistory ++ [v]
      let vh := if m.historySize < vh0.length then vh0.tail else vh0
      let m1 := { m with velocityHistory := vh }
      match m1.velocityHistory.reverse with
      | currVel :: prevVel :: _ =>
        let accDt := (currVel.timestamp - prevVel.timestamp) / 1000
        if accDt ≤ 0 then m1
        else
          let a : VelEntry := ⟨(currVel.lat - prevVel.lat) / accDt,
                               (currVel.lon - prevVel.lon) / accDt,
                               currVel.timestamp⟩
          let ah0 := m1.accelerationHistory ++ [a]
          let ah := if m1.historySize < ah0.length then ah0.tail else ah0
          { m1 with accelerationHistory := ah }
      | _ => m1
  | _ => m

/-- `trainModels()`: with at least 3 history points, retrains the lat/lon
models on `(relative-seconds, value)` pairs and the speed/heading models on
the subset of points carrying those fields (when at least 2 such pairs). -/
noncomputable def MovementPatternAnalyzer.trainModels
    (m : MovementPatternAnalyzer) : MovementPatternAnalyzer :=
  if m.positionHistory.length < 3 then m
  else
    match m.positionHistory with
    | [] => m
    | p0 :: _ =>
      let baseTime := p0.timestamp
      let latData := m.positionHistory.map
        (fun p => ((p.timestamp - baseTime) / 1000, p.lat))
      let lonData := m.positionHistory.map
        (fun p => ((p.timestamp - baseTime) / 1000, p.lon))
      let speedData := m.positionHistory.filterMap
        (fun p => p.speed.map (fun s => ((p.timestamp - baseTime) / 1000, s)))
      let headingData := m.positionHistory.filterMap
        (fun p => p.heading.map (fun h => ((p.timestamp - baseTime) / 1000, h)))
      let m1 := { m with latModel := m.latModel.train latData,
                         lonModel := m.lonModel.train lonData }
      let m2 := if 2 ≤ speedData.length
                then { m1 with speedModel := m1.speedModel.train speedData }
                else m1
      if 2 ≤ headingData.length
      then { m2 with headingModel := m2.headingModel.train headingData }
      else m2

/-- `MovementPatternAnalyzer.addPosition(position)`: push (trimming to
`historySize`), update velocity/acceleration, retrain. -/
noncomputable def MovementPatternAnalyzer.addPosition
    (m : MovementPatternAnalyzer) (p : TrajPoint) : MovementPatternAnalyzer :=
  let ph0 := m.positionHistory ++ [p]
  let ph := if m.historySize < ph0.length then ph0.tail else ph0
  ({ m with positionHistory := ph }).updateVelocityAndAcceleration.trainModels

/-- Timestamp of `positionHistory[positionHistory.length - 1]` (0 when empty). -/
def MovementPatternAnalyzer.lastTimestamp (m : MovementPatternAnalyzer) : ℝ :=
  match m.positionHistory.getLast? with
  | some p => p.timestamp
  | none => 0

/-- Result of `predictPosition`: `{lat, lon, timestamp, confidence,
isPredicted: true}`. -/
structure Predicted where
  lat : ℝ
  lon : ℝ
  timestamp : ℝ
  confidence : ℝ
  isPredicted : Bool

/-- `predictPosition(futureTimestamp)`: `null` with fewer than 3 history
points; otherwise a linear extrapolation whose confidence is
`max(0.1, 0.9 · exp(−timeGap/30))` with `timeGap` the seconds since the
last history point. -/
noncomputable def MovementPatternAnalyzer.predictPosition
    (m : MovementPatternAnalyzer) (futureTimestamp : ℝ) : Option Predicted :=
  if m.positionHistory.length < 3 then none
  else
    match m.positionHistory with
    | [] => none
    | p0 :: _ =>
      let relativeFutureTime := (futureTimestamp - p0.timestamp) / 1000
      match m.latModel.predict relativeFutureTime,
            m.lonModel.predict relativeFutureTime with
      | some predictedLat, some predictedLon =>
        let timeGap := (futureTimestamp - m.lastTimestamp) / 1000
        let confidence := 0.9 * Real.exp (-timeGap / 30)
        some ⟨predictedLat, predictedLon, futureTimestamp,
              max 0.1 confidence, true⟩
      | _, _ => none

/-! ## trajectoryPrediction.js : GPSGapFiller -/

/-- `GPSGapFiller` state; `maxGapDuration` is 60000 ms at construction. -/
structure GPSGapFiller where
  patternAnalyzer : MovementPatternAnalyzer
  isInGap : Bool
  gapStartTime : ℝ
  lastKnownPosition : Option TrajPoint
  maxGapDuration : ℝ

/-- `new GPSGapFiller()`. -/
def GPSGapFiller.empty : GPSGapFiller :=
  ⟨MovementPatternAnalyzer.empty, false, 0, none, 60000⟩

/-- `GPSGapFiller.fillGap()` with `Date.now()` passed explicitly: `null`
once the gap exceeds `maxGapDuration`, otherwise the trajectory prediction
when its confidence exceeds 0.3. -/
noncomputable def GPSGapFiller.fillGap (gf : GPSGapFiller) (now : ℝ) :
    Option Predicted :=
  if gf.maxGapDuration < now - gf.gapStartTime then none
  else
    match gf.patternAnalyzer.predictPosition now with
    | some predicted =>
      if 0.3 < predicted.confidence then some predicted else none
    | none => none

/-- The real-fix branch of `GPSGapFiller.processPosition(position)` — the one
`RunTracker.addPosition` reaches (it always passes a present position without
an `isPredicted` flag): feed the analyzer, clear the gap state. -/
noncomputable def GPSGapFiller.processPositionReal (gf : GPSGapFiller)
    (p : TrajPoint) : GPSGapFiller :=
  { gf with patternAnalyzer := gf.patternAnalyzer.addPosition p,
            lastKnownPosition := some p, isInGap := false }

/-- `GPSGapFiller.reset()`. -/
def GPSGapFiller.reset (gf : GPSGapFiller) : GPSGapFiller :=
  { gf with patternAnalyzer := MovementPatternAnalyzer.empty gf.patternAnalyzer.historySize,
            isInGap := false, gapStartTime := 0, lastKnownPosition := none }

/-! ## Concrete gap-filler runs (three real fixes, then a gap) -/

/-- First concrete fix fed to the analyzer (t = 0 ms). -/
def trajP1 : TrajPoint := ⟨0, 0, 0, none, none⟩

/-- Second concrete fix (t = 1000 ms). -/
def trajP2 : TrajPoint := ⟨0, 0, 1000, none, none⟩

/-- Third concrete fix (t = 2000 ms). -/
def trajP3 : TrajPoint := ⟨0, 0, 2000, none, none⟩

/-- The analyzer after ingesting the three fixes. -/
noncomputable def mpa3 : MovementPatternAnalyzer :=
  ((MovementPatternAnalyzer.empty.addPosition trajP1).addPosition
      trajP2).addPosition trajP3

/-- Gap filler 50 s into a gap (gap started at t = 10000 ms): still below the
60 s cap, with a full 3-point history. -/
noncomputable def gfC : GPSGapFiller := ⟨mpa3, true, 10000, none, 60000⟩

/-- Gap filler queried right at the last fix (gap started at t = 0 ms). -/
noncomputable def gfW : GPSGapFiller := ⟨mpa3, true, 0, none, 60000⟩

/-- The prediction `gfW.fillGap 2000` produces. -/
noncomputable def predW : Predicted := ⟨0, 0, 2000, 0.9, true⟩

/-! ## Geometry: Math.atan2 and the haversine distance -/

/-- JS `Math.atan2(y, x)`, realized as the complex argument of `x + y·i`
(identical quadrant and sign conventions, including `atan2(0, 0) = 0`). -/
noncomputable def atan2 (y x : ℝ) : ℝ := Complex.arg (x + y * Complex.I)

/-- `RunTracker.toRadians(degrees)`. -/
noncomputable def toRadians (degrees : ℝ) : ℝ := degrees * Real.pi / 180

/-- `RunTracker.calculateDistance(lat1, lon1, lat2, lon2)`: haversine formula
with Earth radius 6371000 m. -/
noncomputable def calculateDistance (lat1 lon1 lat2 lon2 : ℝ) : ℝ :=
  let dLat := toRadians (lat2 - lat1)
  let dLon := toRadians (lon2 - lon1)
  let a := Real.sin (dLat / 2) * Real.sin (dLat / 2) +
    Real.cos (toRadians lat1) * Real.cos (toRadians lat2) *
      (Real.sin (dLon / 2) * Real.sin (dLon / 2))
  let c := 2 * atan2 (Real.sqrt a) (Real.sqrt (1 - a))
  6371000 * c

/-! ## RunTracker.js : state -/

/-- `localStorage.distanceUnit` (`km` or `mile`), modelled as session state. -/
inductive DistanceUnit where
  | km
  | mile
  deriving Repr, DecidableEq

/-- `this.gpsFilteringMode` (`kalman` or `weighted`). -/
inductive FilterMode where
  | kalman
  | weighted
  deriving Repr, DecidableEq

/-- The canonical position shape produced by `standardise` and stored in
`this.positions`.  The stored JS object duplicates these fields at top level
and under `coords` with identical values; the model keeps one copy. -/
structure GeoPos where
  latitude : ℝ
  longitude : ℝ
  accuracy : ℝ
  altitude : Option ℝ
  timestamp : ℝ

/-- A raw fix delivered to `addPosition`; absent JS fields are `none`
(gating accuracy is `accuracy ?? coords.accuracy ?? 999`, `standardise`
defaults accuracy to 0 and replaces a falsy timestamp with `Date.now()`). -/
structure RawFix where
  latitude : ℝ
  longitude : ℝ
  altitude : Option ℝ
  accuracy : Option ℝ
  timestamp : ℝ

/-- `this.elevation`. -/
structure Elevation where
  current : Option ℝ
  gain : ℝ
  loss : ℝ
  lastAltitude : Option ℝ

/-- One recorded split; the `km` field holds the completed unit index in both
km and mile modes, as in the source. -/
structure Split where
  km : ℤ
  time : ℝ
  pace : ℝ
  isPartial : Bool

/-- The `this.emit(...)` calls of the modelled operations, with payloads. -/
inductive Event where
  | durationChange (d : ℝ)
  | distanceChange (d : ℝ)
  | goalReached (distance goal : ℝ)
  | stepsChange (n : ℤ)
  | elevationChange (e : Elevation)
  | splitRecorded (splits : List Split)
  | statusChange (isTracking isPaused : Bool)

/-- `RunTracker` state: the fields the modelled operations read or write.
Timer/watcher handles, the string-formatted `currentSpeed`, and the
sensor-fusion manager are outside the model (`addPosition` only writes to
the sensor-fusion manager, never reads it). -/
structure RunTracker where
  distance : ℝ
  duration : ℝ
  pace : ℝ
  estimatedSteps : ℤ
  splits : List Split
  positions : List GeoPos
  distanceGoal : Option ℝ
  strideLength : ℝ
  elevation : Elevation
  isTracking : Bool
  isPaused : Bool
  startTime : ℝ
  pausedTime : ℝ
  lastPauseTime : ℝ
  lastSplitDistance : ℝ
  activityType : ActivityType
  smoothedSpeedMps : ℝ
  latFilter : KalmanFilter1D ℝ
  lonFilter : KalmanFilter1D ℝ
  altFilter : KalmanFilter1D ℝ
  weightedFilter : WeightedGPSFilter ℝ
  gpsFilteringMode : FilterMode
  lastGPSTime : ℝ
  gpsGapFiller : GPSGapFiller
  distanceUnit : DistanceUnit

/-! ## RunTracker.js : addPosition and its stages -/

/-- `standardise(pos)` from `addPosition`, with `Date.now()` passed as `now`:
`timestamp: pos.timestamp || Date.now()` (`||` replaces the falsy 0) and
`accuracy: pos.accuracy ?? pos.coords?.accuracy ?? 0`. -/
noncomputable def standardise (now : ℝ) (p : RawFix) : GeoPos :=
  ⟨p.latitude, p.longitude, p.accuracy.getD 0, p.altitude,
   if p.timestamp = 0 then now else p.timestamp⟩

/-- `standardise` applied to an entry of `this.positions` (all fields are
present there, so only the falsy-timestamp replacement can fire). -/
noncomputable def standardiseStored (now : ℝ) (g : GeoPos) : GeoPos :=
  { g with timestamp := if g.timestamp = 0 then now else g.timestamp }

/-- The GPS-filtering stage of `addPosition`: in Kalman mode, adjust `R` from
the fix accuracy, set `Q` by activity type (walk 0.5, cycle 5, run 3), filter
latitude/longitude and — when present — altitude; in weighted mode, feed the
sliding-window filter.  Returns the tracker with updated filter state and
the filtered position. -/
noncomputable def applyGpsFilter (s : RunTracker) (cur : GeoPos)
    (accuracy : ℝ) : RunTracker × GeoPos :=
  match s.gpsFilteringMode with
  | FilterMode.kalman =>
    let latF0 := s.latFilter.adjustParameters accuracy
    let lonF0 := s.lonFilter.adjustParameters accuracy
    let q : ℝ := match s.activityType with
      | ActivityType.walk => 0.5
      | ActivityType.cycle => 5
      | ActivityType.run => 3
    let latF1 : KalmanFilter1D ℝ := { latF0 with Q := q }
    let lonF1 : KalmanFilter1D ℝ := { lonF0 with Q := q }
    let rLat := latF1.filter cur.latitude
    let rLon := lonF1.filter cur.longitude
    match cur.altitude with
    | some alt =>
      let rAlt := s.altFilter.filter alt
      ({ s with latFilter := rLat.2, lonFilter := rLon.2, altFilter := rAlt.2 },
       { cur with latitude := rLat.1, longitude := rLon.1,
                  altitude := some rAlt.1 })
    | none =>
      ({ s with latFilter := rLat.2, lonFilter := rLon.2 },
       { cur with latitude := rLat.1, longitude := rLon.1, altitude := none })
  | FilterMode.weighted =>
    let r := s.weightedFilter.addReading
      ⟨cur.latitude, cur.longitude, accuracy, cur.timestamp⟩
    match r.2 with
    | some wr =>
      ({ s with weightedFilter := r.1 },
       { cur with latitude := wr.lat, longitude := wr.lon,
                  accuracy := wr.accuracy })
    | none => ({ s with weightedFilter := r.1 }, cur)

/-- The filtered position `addPosition` derives from a raw fix. -/
noncomputable def filteredFix (now : ℝ) (s : RunTracker) (fx : RawFix) :
    GeoPos :=
  (applyGpsFilter s (standardise now fx) (fx.accuracy.getD 999)).2

/-- The haversine increment between the previous stored position and a
filtered position. -/
noncomputable def incrementFrom (lastRaw fp : GeoPos) : ℝ :=
  calculateDistance lastRaw.latitude lastRaw.longitude fp.latitude fp.longitude

/-- `updateElevation(altitude)`: skip absent altitude; otherwise set
`current`, accumulate gain/loss when `|diff| ≥ 1`, set `lastAltitude`,
emit `elevationChange`.  (The JS `isNaN` guard has no counterpart in `ℝ`.) -/
noncomputable def updateElevation (e : Elevation) (altitude : Option ℝ) :
    Elevation × List Event :=
  match altitude with
  | none => (e, [])
  | some alt =>
    let e1 : Elevation := { e with current := some alt }
    let e2 : Elevation :=
      match e.lastAltitude with
      | none => e1
      | some lastA =>
        let diff := alt - lastA
        if 1 ≤ |diff| then
          if 0 < diff then { e1 with gain := e1.gain + diff }
          else { e1 with loss := e1.loss + |diff| }
        else e1
    let e3 : Elevation := { e2 with lastAltitude := some alt }
    (e3, [Event.elevationChange e3])

/-- Meters per split unit: 1000 (km) or 1609.344 (mile). -/
noncomputable def unitMeters (u : DistanceUnit) : ℝ :=
  match u with
  | DistanceUnit.km => 1000
  | DistanceUnit.mile => 1609.344

/-- `this.splits.length ? this.splits[this.splits.length - 1].time : 0`. -/
def prevSplitTime (l : List Split) : ℝ :=
  match l.getLast? with
  | some sp => sp.time
  | none => 0

/-- The split-evaluation block of `addPosition`: compare
`floor(distance/unit)` with `floor(lastSplitDistance/unit)` and, when a new
whole unit is complete, append one `Split` and advance `lastSplitDistance`. -/
noncomputable def splitUpdate (s : RunTracker) : RunTracker × List Event :=
  let splitDistance := unitMeters s.distanceUnit
  let currentDistanceInUnits := s.distance / splitDistance
  let lastSplitDistanceInUnits := s.lastSplitDistance / splitDistance
  if ⌊lastSplitDistanceInUnits⌋ < ⌊currentDistanceInUnits⌋ then
    let currentSplitNumber := ⌊currentDistanceInUnits⌋
    let previousSplitTime := prevSplitTime s.splits
    let splitDuration := s.duration - previousSplitTime
    let splitPace := splitDuration / splitDistance
    let newSplits := s.splits ++
      [⟨currentSplitNumber, s.duration, splitPace, false⟩]
    ({ s with splits := newSplits,
              lastSplitDistance := (currentSplitNumber : ℝ) * splitDistance },
     [Event.splitRecorded newSplits])
  else (s, [])

/-- The walking-steps block of `addPosition`:
`estimatedSteps = distance > 0 ? round(distance / strideLength) : 0`. -/
noncomputable def stepsUpdate (s : RunTracker) : RunTracker × List Event :=
  if s.activityType = ActivityType.walk then
    let n : ℤ := if 0 < s.distance then round (s.distance / s.strideLength)
                 else 0
    ({ s with estimatedSteps := n }, [Event.stepsChange n])
  else (s, [])

/-- The common tail of `addPosition` (lines after the history block): store
the filtered position, feed the gap filler with a real fix (the object passed
carries no `isPredicted` flag and `speed`/`heading` are `undefined`), record
`lastGPSTime`.  The write-only `sensorFusion.updateGPSPosition` call has no
counterpart in the modelled state. -/
noncomputable def addPositionTail (s : RunTracker) (fp : GeoPos) :
    RunTracker :=
  { s with positions := s.positions ++ [fp],
           gpsGapFiller := s.gpsGapFiller.processPositionReal
             ⟨fp.latitude, fp.longitude, fp.timestamp, none, none⟩,
           lastGPSTime := fp.timestamp }

/-- Elevation update, split evaluation, then the common tail — the shared
suffix of the jitter and non-jitter paths of `addPosition`. -/
noncomputable def elevSplitAndStore (s : RunTracker) (evs : List Event)
    (fp : GeoPos) : RunTracker × List Event :=
  let er := updateElevation s.elevation fp.altitude
  let s4 : RunTracker := { s with elevation := er.1 }
  let sr := splitUpdate s4
  (addPositionTail sr.1 fp, evs ++ er.2 ++ sr.2)

/-- `RunTracker.addPosition(newPosition)`, with `Date.now()` passed as `now`
and the shared `filterLocation` helper (runCalculations.js, not among the
provided sources) abstracted as the `filterLoc` argument.  Returns the new
tracker state and the emitted events, in order. -/
noncomputable def addPosition (filterLoc : GeoPos → GeoPos → Bool) (now : ℝ)
    (s : RunTracker) (newPosition : RawFix) : RunTracker × List Event :=
  if s.isTracking = false ∨ s.isPaused = true then (s, [])
  else
    let accuracy := newPosition.accuracy.getD 999
    if 20 < accuracy then (s, [])
    else
      let cur := standardise now newPosition
      if cur.latitude < -90 ∨ 90 < cur.latitude ∨
          cur.longitude < -180 ∨ 180 < cur.longitude then (s, [])
      else
        let fs := applyGpsFilter s cur accuracy
        let fp := fs.2
        let dur := (fp.timestamp - fs.1.startTime - fs.1.pausedTime) / 1000
        let s2 : RunTracker := { fs.1 with duration := dur }
        let evs := [Event.durationChange dur]
        match s.positions.getLast? with
        | none => (addPositionTail s2 fp, evs)
        | some lastRaw =>
          if filterLoc fp (standardiseStored now lastRaw) = false then (s2, evs)
          else
            let inc := incrementFrom lastRaw fp
            if 0.5 ≤ inc then
              let s3 : RunTracker := { s2 with distance := s2.distance + inc }
              let evs3 := evs ++ [Event.distanceChange s3.distance]
              match s3.distanceGoal with
              | some goal =>
                if goal ≤ s3.distance then
                  (s3, evs3 ++ [Event.goalReached s3.distance goal])
                else
                  let st := stepsUpdate s3
                  elevSplitAndStore st.1 (evs3 ++ st.2) fp
              | none =>
                let st := stepsUpdate s3
                elevSplitAndStore st.1 (evs3 ++ st.2) fp
            else
              elevSplitAndStore s2 evs fp

/-- `RunTracker.pause()` (the watcher/timer teardown is outside the model). -/
noncomputable def pause (s : RunTracker) (now : ℝ) : RunTracker × List Event :=
  if s.isTracking = false ∨ s.isPaused = true then (s, [])
  else
    let s1 : RunTracker := { s with isPaused := true, lastPauseTime := now }
    (s1, [Event.statusChange s1.isTracking s1.isPaused])

/-- `RunTracker.resume()`. -/
noncomputable def resume (s : RunTracker) (now : ℝ) : RunTracker × List Event :=
  if s.isTracking = false ∨ s.isPaused = false then (s, [])
  else
    let s1 : RunTracker :=
      { s with isPaused := false,
               pausedTime := s.pausedTime + (now - s.lastPauseTime) }
    (s1, [Event.statusChange s1.isTracking s1.isPaused])

/-- Modelled from the spec: `filterLocation` (runCalculations.js) is not
among the provided sources; §4.2 of the spec describes the ingestion quality
gate as exactly the tracking/accuracy/coordinate-range checks already
performed inline in `addPosition` and names no further rejection criterion,
so the shared helper is modelled as accepting every position. -/
def filterLocationSpec : GeoPos → GeoPos → Bool := fun _ _ => true

/-! ## Concrete tracking states for witnesses and counterexamples -/

/-- A freshly started session (the state right after `start()`): all
accumulators zero, fresh filters with the constructor parameters of
`RunTracker` (`{Q:3, R:0.01}` for lat/lon, `{Q:1, R:0.05}` for altitude),
Kalman mode, km unit, run activity, default stride length 0.62 m. -/
noncomputable def trackerBase : RunTracker :=
  { distance := 0, duration := 0, pace := 0, estimatedSteps := 0,
    splits := [], positions := [], distanceGoal := none, strideLength := 0.62,
    elevation := ⟨none, 0, 0, none⟩, isTracking := true, isPaused := false,
    startTime := 0, pausedTime := 0, lastPauseTime := 0,
    lastSplitDistance := 0, activityType := ActivityType.run,
    smoothedSpeedMps := 0,
    latFilter := KalmanFilter1D.init 3 (1 / 100),
    lonFilter := KalmanFilter1D.init 3 (1 / 100),
    altFilter := KalmanFilter1D.init 1 (1 / 20),
    weightedFilter := WeightedGPSFilter.init ℝ 5,
    gpsFilteringMode := FilterMode.kalman, lastGPSTime := 0,
    gpsGapFiller := GPSGapFiller.empty, distanceUnit := DistanceUnit.km }

/-- A fix with 25 m accuracy (to be rejected by the quality gate). -/
noncomputable def fix25 : RawFix := ⟨37, -122, none, some 25, 1000⟩

/-! ## Concrete accepted fixes: a northward step of 0.009° -/

/-- The stored previous position at the origin, accuracy 5 m. -/
noncomputable def geo0 : GeoPos := ⟨0, 0, 5, none, 0⟩

/-- A fix 0.009° north of `geo0` — a haversine step of
`6371000·(0.009·π/180) ≈ 1000.7 m`. -/
noncomputable def fixCross : RawFix := ⟨0.009, 0, none, some 5, 60000⟩

/-! ## Claim C10 -/

/-- A tracking session 0 m in with an active 500 m distance goal and one
stored position at the origin. -/
noncomputable def trackerGoal : RunTracker :=
  { trackerBase with distanceGoal := some 500, positions := [geo0] }

/-- A tracking session 900 m in with an active 1500 m goal, about to cross
the first whole-km boundary. -/
noncomputable def trackerC8 : RunTracker :=
  { trackerBase with distance := 900, distanceGoal := some 1500,
                     positions := [geo0] }

/-- A tracking session 900 m in with no distance goal, about to cross the
first whole-km boundary. -/
noncomputable def trackerW8 : RunTracker :=
  { trackerBase with distance := 900, positions := [geo0] }

/-! ## Helper lemmas about the confidence decay -/

/-- Quadratic lower bound on the exponential, used to bound the trajectory
confidence decay. -/
theorem one_add_half_mul_self_le_exp {x : ℝ} (hx : 0 ≤ x) :
    (1 + x / 2) * (1 + x / 2) ≤ Real.exp x := by
  have h1 : (0 : ℝ) ≤ 1 + x / 2 := by linarith
  have h2 : 1 + x / 2 ≤ Real.exp (x / 2) := by
    have h := Real.add_one_le_exp (x / 2); linarith
  have h3 : Real.exp (x / 2) * Real.exp (x / 2) = Real.exp x := by
    rw [← Real.exp_add]; ring_nf
  calc (1 + x / 2) * (1 + x / 2)
      ≤ Real.exp (x / 2) * Real.exp (x / 2) :=
        mul_le_mul h2 h2 h1 (le_of_lt (Real.exp_pos _))
    _ = Real.exp x := h3

/-- The confidence a successful `predictPosition` call reports. -/
theorem predictPosition_confidence_eq (m : MovementPatternAnalyzer) (t : ℝ)
    (p : Predicted) (h : m.predictPosition t = some p) :
    p.confidence
      = max 0.1 (0.9 * Real.exp (-((t - m.lastTimestamp) / 1000) / 30)) := by
  unfold MovementPatternAnalyzer.predictPosition at h
  split at h
  · exact absurd h (by simp)
  · split at h
    · exact absurd h (by simp)
    · dsimp only at h
      split at h
      · injection h with h'
        subst h'
        rfl
      · exact absurd h (by simp)

/-- `fillGap` returns `null` whenever the gap has not exceeded the cap but
the predicted confidence is at most 0.3. -/
theorem fillGap_eq_none_of_low_confidence (gf : GPSGapFiller) (now : ℝ)
    (p : Predicted) (h : gf.patternAnalyzer.predictPosition now = some p)
    (hc : p.confidence ≤ 0.3) (hgap : now - gf.gapStartTime ≤ gf.maxGapDuration) :
    gf.fillGap now = none := by
  unfold GPSGapFiller.fillGap
  rw [if_neg (not_lt.2 hgap), h]
  exact if_neg (not_lt.2 hc)

theorem mpa1_eq : MovementPatternAnalyzer.empty.addPosition trajP1
    = ⟨20, [trajP1], [], [], LinearRegression.empty, LinearRegression.empty,
       LinearRegression.empty, LinearRegression.empty⟩ := by
  norm_num [MovementPatternAnalyzer.addPosition, MovementPatternAnalyzer.empty,
    MovementPatternAnalyzer.updateVelocityAndAcceleration,
    MovementPatternAnalyzer.trainModels, trajP1]

theorem mpa2_eq :
    (⟨20, [trajP1], [], [], LinearRegression.empty, LinearRegression.empty,
      LinearRegression.empty, LinearRegression.empty⟩ :
        MovementPatternAnalyzer).addPosition trajP2
    = ⟨20, [trajP1, trajP2], [⟨0, 0, 1000⟩], [], LinearRegression.empty,
       LinearRegression.empty, LinearRegression.empty,
       LinearRegression.empty⟩ := by
  norm_num [MovementPatternAnalyzer.addPosition,
    MovementPatternAnalyzer.updateVelocityAndAcceleration,
    MovementPatternAnalyzer.trainModels, trajP1, trajP2]

theorem mpa3_eq : mpa3
    = ⟨20, [trajP1, trajP2, trajP3], [⟨0, 0, 1000⟩, ⟨0, 0, 2000⟩],
       [⟨0, 0, 2000⟩], ⟨0, 0, true⟩, ⟨0, 0, true⟩, LinearRegression.empty,
       LinearRegression.empty⟩ := by
  rw [mpa3, mpa1_eq, mpa2_eq]
  norm_num [MovementPatternAnalyzer.addPosition,
    MovementPatternAnalyzer.updateVelocityAndAcceleration,
    MovementPatternAnalyzer.trainModels, LinearRegression.train,
    LinearRegression.empty, trajP1, trajP2, trajP3]

theorem gfW_fillGap_eval : gfW.fillGap 2000 = some predW := by
  norm_num [GPSGapFiller.fillGap, gfW, mpa3_eq,
    MovementPatternAnalyzer.predictPosition,
    MovementPatternAnalyzer.lastTimestamp, LinearRegression.predict, predW,
    trajP1, trajP2, trajP3, Real.exp_zero, max_def]

/-! ## Claim C5 -/

/-- C5 counterexample: with a 3-point trajectory history and a gap of 50 s —
below the 60 s cap — `fillGap` nevertheless returns `null`, because the
decayed confidence `max(0.1, 0.9·exp(−58/30)) ≈ 0.13` fails the `> 0.3`
acceptance test.  This refutes "for every call before that threshold in
which the trajectory history holds at least 3 points it returns a non-null
position". -/
theorem fillGap_null_before_threshold_cex :
    3 ≤ gfC.patternAnalyzer.positionHistory.length ∧
    (60000 : ℝ) - gfC.gapStartTime ≤ 60000 ∧
    gfC.fillGap 60000 = none := by
  have h3 : (3 : ℝ) ≤ Real.exp (29 / 15) := by
    have h := one_add_half_mul_self_le_exp (x := (29 : ℝ) / 15) (by norm_num)
    nlinarith [h]
  have hconf : (0.9 : ℝ)
      * Real.exp (-(((60000 : ℝ) - 2000) / 1000) / 30) ≤ 0.3 := by
    have hp : (0 : ℝ) < Real.exp (29 / 15) := Real.exp_pos _
    have he : Real.exp (-(((60000 : ℝ) - 2000) / 1000) / 30)
        = (Real.exp (29 / 15))⁻¹ := by
      rw [← Real.exp_neg]
      congr 1
      norm_num
    rw [he, ← div_eq_mul_inv, div_le_iff₀ hp]
    nlinarith [h3]
  have hpred : gfC.patternAnalyzer.predictPosition 60000
      = some ⟨0, 0, 60000,
          max 0.1 (0.9 * Real.exp (-(((60000 : ℝ) - 2000) / 1000) / 30)),
          true⟩ := by
    norm_num [gfC, mpa3_eq, MovementPatternAnalyzer.predictPosition,
      MovementPatternAnalyzer.lastTimestamp, LinearRegression.predict,
      trajP1, trajP2, trajP3]
  refine ⟨by norm_num [gfC, mpa3_eq], by norm_num [gfC], ?_⟩
  exact fillGap_eq_none_of_low_confidence gfC 60000 _ hpred
    (max_le (by norm_num) hconf) (by norm_num [gfC])

/-- C5 amended: `fillGap` never returns a synthetic position once
`now − gapStart` exceeds the 60000 ms cap (equivalently: any returned
position implies the gap is within the cap), and every returned position has
confidence in (0.3, 0.9] — the upper bound provided the query time is not
before the last recorded fix.  A non-null result before the cap is *not*
guaranteed: it additionally requires the decayed confidence to exceed 0.3
(roughly, being within 30·ln 3 ≈ 33 s of the last fix). -/
theorem fillGap_result_bounds (gf : GPSGapFiller) (now : ℝ) (p : Predicted)
    (hmax : gf.maxGapDuration = 60000)
    (h : gf.fillGap now = some p)
    (hts : gf.patternAnalyzer.lastTimestamp ≤ now) :
    now - gf.gapStartTime ≤ 60000 ∧ 0.3 < p.confidence ∧
      p.confidence ≤ 0.9 := by
  unfold GPSGapFiller.fillGap at h
  by_cases hgap : gf.maxGapDuration < now - gf.gapStartTime
  · rw [if_pos hgap] at h
    exact absurd h (by simp)
  · rw [if_neg hgap] at h
    refine ⟨hmax ▸ not_lt.1 hgap, ?_⟩
    cases hp : gf.patternAnalyzer.predictPosition now with
    | none => rw [hp] at h; exact absurd h (by simp)
    | some q =>
      rw [hp] at h
      have hm : (if (0.3 : ℝ) < q.confidence then some q else none) = some p := h
      by_cases hq : (0.3 : ℝ) < q.confidence
      · rw [if_pos hq] at hm
        injection hm with h'
        subst h'
        refine ⟨hq, ?_⟩
        rw [predictPosition_confidence_eq _ _ _ hp]
        have hgap0 : (0 : ℝ) ≤ (now - gf.patternAnalyzer.lastTimestamp) / 1000 := by
          have hs := sub_nonneg.2 hts
          positivity
        have hexp : Real.exp (-((now - gf.patternAnalyzer.lastTimestamp) / 1000) / 30) ≤ 1 := by
          rw [Real.exp_le_one_iff]
          nlinarith [hgap0]
        have hpos := Real.exp_pos (-((now - gf.patternAnalyzer.lastTimestamp) / 1000) / 30)
        refine max_le (by norm_num) (by nlinarith [hexp, hpos])
      · rw [if_neg hq] at hm
        exact absurd hm (by simp)

/-- C5 witness: queried at the instant of the last fix (gap 2000 ms, decayed
confidence 0.9), `fillGap` returns a position, and the amended bounds hold. -/
theorem fillGap_result_bounds_witness :
    gfW.fillGap 2000 = some predW ∧ gfW.maxGapDuration = 60000 ∧
    gfW.patternAnalyzer.lastTimestamp ≤ 2000 ∧
    ((2000 : ℝ) - gfW.gapStartTime ≤ 60000 ∧ 0.3 < predW.confidence ∧
      predW.confidence ≤ 0.9) :=
  ⟨gfW_fillGap_eval, rfl,
   by norm_num [gfW, mpa3_eq, MovementPatternAnalyzer.lastTimestamp, trajP3],
   fillGap_result_bounds gfW 2000 predW rfl gfW_fillGap_eval
     (by norm_num [gfW, mpa3_eq, MovementPatternAnalyzer.lastTimestamp,
       trajP3])⟩

theorem atan2_nonneg (y x : ℝ) (hy : 0 ≤ y) : 0 ≤ atan2 y x := by
  unfold atan2
  rw [Complex.arg_nonneg_iff]
  simpa using hy

/-- A haversine distance is never negative (the argument of a complex number
with non-negative imaginary part lies in `[0, π]`). -/
theorem calculateDistance_nonneg (lat1 lon1 lat2 lon2 : ℝ) :
    0 ≤ calculateDistance lat1 lon1 lat2 lon2 := by
  unfold calculateDistance
  dsimp only
  have h := atan2_nonneg (Real.sqrt (Real.sin (toRadians (lat2 - lat1) / 2) *
      Real.sin (toRadians (lat2 - lat1) / 2) +
    Real.cos (toRadians lat1) * Real.cos (toRadians lat2) *
      (Real.sin (toRadians (lon2 - lon1) / 2) *
        Real.sin (toRadians (lon2 - lon1) / 2))))
    (Real.sqrt (1 - (Real.sin (toRadians (lat2 - lat1) / 2) *
      Real.sin (toRadians (lat2 - lat1) / 2) +
    Real.cos (toRadians lat1) * Real.cos (toRadians lat2) *
      (Real.sin (toRadians (lon2 - lon1) / 2) *
        Real.sin (toRadians (lon2 - lon1) / 2)))))
    (Real.sqrt_nonneg _)
  nlinarith [h]

theorem atan2_sin_cos {θ : ℝ} (h1 : -Real.pi < θ) (h2 : θ ≤ Real.pi) :
    atan2 (Real.sin θ) (Real.cos θ) = θ := by
  unfold atan2
  have h := Complex.arg_cos_add_sin_mul_I (θ := θ) ⟨h1, h2⟩
  rw [← Complex.ofReal_cos, ← Complex.ofReal_sin] at h
  exact h

/-- Along a meridian the haversine distance evaluates exactly:
`R · Δlat` in radians, for a northward step of at most 180°. -/
theorem calculateDistance_same_lon (lat1 lat2 lon : ℝ) (h1 : lat1 ≤ lat2)
    (h2 : lat2 - lat1 ≤ 180) :
    calculateDistance lat1 lon lat2 lon = 6371000 * toRadians (lat2 - lat1) := by
  have hpi := Real.pi_pos
  unfold calculateDistance
  dsimp only
  have hs0 : Real.sin (toRadians (lon - lon) / 2) = 0 := by
    rw [sub_self]
    unfold toRadians
    norm_num
  rw [hs0]
  have hθ0 : 0 ≤ toRadians (lat2 - lat1) / 2 := by
    unfold toRadians
    have hd := sub_nonneg.2 h1
    positivity
  have hθpi : toRadians (lat2 - lat1) / 2 ≤ Real.pi / 2 := by
    unfold toRadians
    have hd := sub_nonneg.2 h1
    nlinarith [mul_nonneg (sub_nonneg.2 h2) hpi.le]
  have hsin0 : 0 ≤ Real.sin (toRadians (lat2 - lat1) / 2) :=
    Real.sin_nonneg_of_nonneg_of_le_pi hθ0 (by linarith)
  have hcos0 : 0 ≤ Real.cos (toRadians (lat2 - lat1) / 2) :=
    Real.cos_nonneg_of_mem_Icc ⟨by linarith, hθpi⟩
  have ha : Real.sin (toRadians (lat2 - lat1) / 2) *
        Real.sin (toRadians (lat2 - lat1) / 2) +
      Real.cos (toRadians lat1) * Real.cos (toRadians lat2) * (0 * 0)
      = Real.sin (toRadians (lat2 - lat1) / 2) *
        Real.sin (toRadians (lat2 - lat1) / 2) := by ring
  rw [ha]
  have hb : 1 - Real.sin (toRadians (lat2 - lat1) / 2) *
        Real.sin (toRadians (lat2 - lat1) / 2)
      = Real.cos (toRadians (lat2 - lat1) / 2) *
        Real.cos (toRadians (lat2 - lat1) / 2) := by
    have hpy := Real.sin_sq_add_cos_sq (toRadians (lat2 - lat1) / 2)
    nlinarith [hpy]
  rw [hb, Real.sqrt_mul_self hsin0, Real.sqrt_mul_self hcos0,
    atan2_sin_cos (by linarith) (by linarith)]
  ring

/-! ## Frame lemmas for the addPosition stages -/

theorem applyGpsFilter_fst (s : RunTracker) (cur : GeoPos) (a : ℝ) :
    ∃ lf lof af wf, (applyGpsFilter s cur a).1
      = { s with latFilter := lf, lonFilter := lof, altFilter := af,
                 weightedFilter := wf } := by
  unfold applyGpsFilter
  split
  · split <;> split <;> exact ⟨_, _, _, _, rfl⟩
  · refine ⟨s.latFilter, s.lonFilter, s.altFilter,
      (s.weightedFilter.addReading
        ⟨cur.latitude, cur.longitude, a, cur.timestamp⟩).1, ?_⟩
    dsimp only
    split <;> rfl

theorem stepsUpdate_fst (s : RunTracker) :
    ∃ n, (stepsUpdate s).1 = { s with estimatedSteps := n } := by
  unfold stepsUpdate
  split
  · exact ⟨_, rfl⟩
  · exact ⟨s.estimatedSteps, rfl⟩

theorem stepsUpdate_distance (s : RunTracker) :
    (stepsUpdate s).1.distance = s.distance := by
  unfold stepsUpdate
  split <;> rfl

theorem splitUpdate_fst (s : RunTracker) :
    ∃ sp lsd, (splitUpdate s).1
      = { s with splits := sp, lastSplitDistance := lsd } := by
  unfold splitUpdate
  dsimp only
  by_cases hC : ⌊s.lastSplitDistance / unitMeters s.distanceUnit⌋
      < ⌊s.distance / unitMeters s.distanceUnit⌋
  · rw [if_pos hC]
    exact ⟨_, _, rfl⟩
  · rw [if_neg hC]
    exact ⟨s.splits, s.lastSplitDistance, rfl⟩

theorem addPositionTail_distance (s : RunTracker) (fp : GeoPos) :
    (addPositionTail s fp).distance = s.distance := rfl

theorem elevSplitAndStore_distance (s : RunTracker) (evs : List Event)
    (fp : GeoPos) : (elevSplitAndStore s evs fp).1.distance = s.distance := by
  unfold elevSplitAndStore
  dsimp only
  obtain ⟨sp, lsd, h⟩ := splitUpdate_fst
    { s with elevation := (updateElevation s.elevation fp.altitude).1 }
  rw [addPositionTail_distance, h]

/-! ## Claim C1 -/

/-- C1: `addPosition` never decreases the distance accumulator — for any
`filterLocation` behaviour, any session state and any fix, so in particular
after each fix of any ingested sequence while tracking and not paused.
Rejected fixes leave `distance` untouched and accepted ones add a haversine
increment, which is non-negative. -/
theorem addPosition_distance_monotone (filterLoc : GeoPos → GeoPos → Bool)
    (now : ℝ) (s : RunTracker) (fx : RawFix) :
    s.distance ≤ (addPosition filterLoc now s fx).1.distance := by
  unfold addPosition
  dsimp only
  split
  · exact le_rfl
  · split
    · exact le_rfl
    · split
      · exact le_rfl
      · obtain ⟨lf, lof, af, wf, hA⟩ :=
          applyGpsFilter_fst s (standardise now fx) (fx.accuracy.getD 999)
        rw [hA]
        split
        · rw [addPositionTail_distance]
        · rename_i lastRaw heq
          split
          · exact le_rfl
          · have h0 : 0 ≤ incrementFrom lastRaw
                (applyGpsFilter s (standardise now fx)
                  (fx.accuracy.getD 999)).2 := by
              unfold incrementFrom
              exact calculateDistance_nonneg _ _ _ _
            split
            · split
              · split
                · dsimp only
                  linarith [h0]
                · rw [elevSplitAndStore_distance, stepsUpdate_distance]
                  dsimp only
                  linarith [h0]
              · rw [elevSplitAndStore_distance, stepsUpdate_distance]
                dsimp only
                linarith [h0]
            · rw [elevSplitAndStore_distance]

/-! ## Claim C2 -/

theorem addPosition_rejected_eq (filterLoc : GeoPos → GeoPos → Bool)
    (now : ℝ) (s : RunTracker) (fx : RawFix)
    (h : 20 < fx.accuracy.getD 999 ∨ fx.latitude < -90 ∨ 90 < fx.latitude ∨
         fx.longitude < -180 ∨ 180 < fx.longitude) :
    addPosition filterLoc now s fx = (s, []) := by
  unfold addPosition
  dsimp only [standardise]
  by_cases h1 : s.isTracking = false ∨ s.isPaused = true
  · rw [if_pos h1]
  · rw [if_neg h1]
    rcases h with ha | hr
    · rw [if_pos ha]
    · by_cases h2 : 20 < fx.accuracy.getD 999
      · rw [if_pos h2]
      · rw [if_neg h2, if_pos hr]

/-- C2: a fix whose (gating) accuracy exceeds 20 m, or whose latitude or
longitude is out of range, changes neither the distance accumulator, nor the
elevation state, nor any filter state (Kalman lat/lon/alt, weighted window),
and emits no event.  (`NaN` coordinates have no counterpart in the
real-valued model; in the source they are caught by the same early return.) -/
theorem addPosition_bad_fix_no_state_change
    (filterLoc : GeoPos → GeoPos → Bool) (now : ℝ) (s : RunTracker)
    (fx : RawFix)
    (h : 20 < fx.accuracy.getD 999 ∨ fx.latitude < -90 ∨ 90 < fx.latitude ∨
         fx.longitude < -180 ∨ 180 < fx.longitude) :
    (addPosition filterLoc now s fx).1.distance = s.distance ∧
    (addPosition filterLoc now s fx).1.elevation = s.elevation ∧
    (addPosition filterLoc now s fx).1.latFilter = s.latFilter ∧
    (addPosition filterLoc now s fx).1.lonFilter = s.lonFilter ∧
    (addPosition filterLoc now s fx).1.altFilter = s.altFilter ∧
    (addPosition filterLoc now s fx).1.weightedFilter = s.weightedFilter ∧
    (addPosition filterLoc now s fx).2 = [] := by
  rw [addPosition_rejected_eq filterLoc now s fx h]
  exact ⟨rfl, rfl, rfl, rfl, rfl, rfl, rfl⟩

/-- C2 witness: the 25 m-accuracy fix satisfies the rejection premise, and a
fresh session ignores it completely. -/
theorem addPosition_bad_fix_no_state_change_witness :
    (20 < fix25.accuracy.getD 999 ∨ fix25.latitude < -90 ∨
      90 < fix25.latitude ∨ fix25.longitude < -180 ∨
      180 < fix25.longitude) ∧
    ((addPosition filterLocationSpec 0 trackerBase fix25).1.distance
        = trackerBase.distance ∧
     (addPosition filterLocationSpec 0 trackerBase fix25).1.elevation
        = trackerBase.elevation ∧
     (addPosition filterLocationSpec 0 trackerBase fix25).1.latFilter
        = trackerBase.latFilter ∧
     (addPosition filterLocationSpec 0 trackerBase fix25).1.lonFilter
        = trackerBase.lonFilter ∧
     (addPosition filterLocationSpec 0 trackerBase fix25).1.altFilter
        = trackerBase.altFilter ∧
     (addPosition filterLocationSpec 0 trackerBase fix25).1.weightedFilter
        = trackerBase.weightedFilter ∧
     (addPosition filterLocationSpec 0 trackerBase fix25).2 = []) :=
  ⟨Or.inl (by norm_num [fix25]),
   addPosition_bad_fix_no_state_change filterLocationSpec 0 trackerBase fix25
     (Or.inl (by norm_num [fix25]))⟩

/-! ## Claim C9 -/

/-- C9: `pause()` at time `t` followed by `resume()` at time `t + Δt` leaves
`distance` and the recorded splits unchanged and adds exactly `Δt` to the
accumulated paused time. -/
theorem pause_resume_frame (s : RunTracker) (t dt : ℝ)
    (h1 : s.isTracking = true) (h2 : s.isPaused = false) :
    (resume (pause s t).1 (t + dt)).1.distance = s.distance ∧
    (resume (pause s t).1 (t + dt)).1.splits = s.splits ∧
    (resume (pause s t).1 (t + dt)).1.pausedTime = s.pausedTime + dt := by
  have hp : pause s t = ({ s with isPaused := true, lastPauseTime := t },
      [Event.statusChange s.isTracking true]) := by
    unfold pause
    rw [if_neg (by rw [h1, h2]; simp)]
  unfold resume
  rw [hp]
  dsimp only
  rw [if_neg (by rw [h1]; simp)]
  refine ⟨rfl, rfl, ?_⟩
  dsimp only
  ring

/-- C9 witness: pausing a fresh session at t = 100 ms and resuming 5 ms
later accumulates exactly 5 ms of paused time. -/
theorem pause_resume_frame_witness :
    (trackerBase.isTracking = true ∧ trackerBase.isPaused = false) ∧
    ((resume (pause trackerBase 100).1 (100 + 5)).1.distance
        = trackerBase.distance ∧
     (resume (pause trackerBase 100).1 (100 + 5)).1.splits
        = trackerBase.splits ∧
     (resume (pause trackerBase 100).1 (100 + 5)).1.pausedTime
        = trackerBase.pausedTime + 5) :=
  ⟨⟨rfl, rfl⟩, pause_resume_frame trackerBase 100 5 rfl rfl⟩

/-! ## The accepted-fix paths of addPosition -/

/-- When every gate passes, the fix is non-jitter and the updated distance
reaches an active goal, `addPosition` stops after emitting `goalReached`:
the result keeps the filter updates and the new duration/distance but skips
steps, elevation, splits and position storage. -/
theorem addPosition_goal_case (filterLoc : GeoPos → GeoPos → Bool) (now : ℝ)
    (s : RunTracker) (fx : RawFix) (lastRaw : GeoPos) (g : ℝ)
    (h1 : s.isTracking = true) (h2 : s.isPaused = false)
    (h3 : fx.accuracy.getD 999 ≤ 20)
    (h4 : ¬(fx.latitude < -90 ∨ 90 < fx.latitude ∨ fx.longitude < -180 ∨
        180 < fx.longitude))
    (hlast : s.positions.getLast? = some lastRaw)
    (hfl : filterLoc (filteredFix now s fx) (standardiseStored now lastRaw)
        = true)
    (hinc : 0.5 ≤ incrementFrom lastRaw (filteredFix now s fx))
    (hgoal : s.distanceGoal = some g)
    (hg : g ≤ s.distance + incrementFrom lastRaw (filteredFix now s fx)) :
    (addPosition filterLoc now s fx).1
      = { (applyGpsFilter s (standardise now fx) (fx.accuracy.getD 999)).1 with
          duration := ((filteredFix now s fx).timestamp - s.startTime -
            s.pausedTime) / 1000,
          distance := s.distance +
            incrementFrom lastRaw (filteredFix now s fx) } ∧
    (addPosition filterLoc now s fx).2
      = [Event.durationChange (((filteredFix now s fx).timestamp -
            s.startTime - s.pausedTime) / 1000),
         Event.distanceChange (s.distance +
            incrementFrom lastRaw (filteredFix now s fx)),
         Event.goalReached (s.distance +
            incrementFrom lastRaw (filteredFix now s fx)) g] := by
  obtain ⟨lf, lof, af, wf, hA⟩ :=
    applyGpsFilter_fst s (standardise now fx) (fx.accuracy.getD 999)
  have hfl' : filterLoc
      (applyGpsFilter s (standardise now fx) (fx.accuracy.getD 999)).2
      (standardiseStored now lastRaw) = true := hfl
  have hinc' : (0.5 : ℝ) ≤ incrementFrom lastRaw
      (applyGpsFilter s (standardise now fx) (fx.accuracy.getD 999)).2 := hinc
  unfold addPosition
  dsimp only
  rw [if_neg (by rw [h1, h2]; simp), if_neg (not_lt.2 h3),
    if_neg (show ¬((standardise now fx).latitude < -90 ∨
      90 < (standardise now fx).latitude ∨
      (standardise now fx).longitude < -180 ∨
      180 < (standardise now fx).longitude) from h4),
    hlast]
  dsimp only
  rw [if_neg (by rw [hfl']; simp), if_pos hinc', hA]
  have hgoal' : ({ s with latFilter := lf, lonFilter := lof, altFilter := af,
                          weightedFilter := wf } :
    RunTracker).distanceGoal = some g := hgoal
  rw [hgoal']
  dsimp only
  rw [if_pos (show g ≤ s.distance + incrementFrom lastRaw
    (applyGpsFilter s (standardise now fx) (fx.accuracy.getD 999)).2
    from hg)]
  exact ⟨rfl, rfl⟩

/-- On a Kalman-mode run-activity tracker with fresh lat/lon filters, the
first fix passes through the filters unchanged. -/
theorem filteredFix_cross_eval (s : RunTracker)
    (hmode : s.gpsFilteringMode = FilterMode.kalman)
    (hact : s.activityType = ActivityType.run)
    (hlat : s.latFilter.x = none) (hlon : s.lonFilter.x = none) :
    filteredFix 60000 s fixCross = ⟨0.009, 0, 5, none, 60000⟩ := by
  unfold filteredFix applyGpsFilter standardise
  rw [hmode]
  norm_num [fixCross, KalmanFilter1D.adjustParameters, KalmanFilter1D.filter,
    hact, hlat, hlon]

/-- The haversine increment of the 0.009° step lies strictly between 1000 m
and 1001 m (hence also ≥ 0.5 m and large enough to cross a km boundary and
any goal within 1000 m). -/
theorem inc_cross_bounds :
    1000 < incrementFrom geo0 (⟨0.009, 0, 5, none, 60000⟩ : GeoPos) ∧
    incrementFrom geo0 (⟨0.009, 0, 5, none, 60000⟩ : GeoPos) < 1001 := by
  have he : incrementFrom geo0 (⟨0.009, 0, 5, none, 60000⟩ : GeoPos)
      = 6371000 * toRadians (0.009 - 0) := by
    unfold incrementFrom geo0
    exact calculateDistance_same_lon 0 0.009 0 (by norm_num) (by norm_num)
  rw [he]
  unfold toRadians
  constructor
  · nlinarith [Real.pi_gt_d4]
  · nlinarith [Real.pi_lt_d4]

/-- C10: an accepted fix whose increment is ≥ 0.5 m and that lifts
`distance` to an active goal makes `addPosition` emit exactly
`durationChange`, `distanceChange`, `goalReached` and return early:
`isTracking` stays true, the fix is not appended to the position history,
the elevation state is untouched, and no split evaluation happens. -/
theorem addPosition_goal_early_return (filterLoc : GeoPos → GeoPos → Bool)
    (now : ℝ) (s : RunTracker) (fx : RawFix) (lastRaw : GeoPos) (g : ℝ)
    (h1 : s.isTracking = true) (h2 : s.isPaused = false)
    (h3 : fx.accuracy.getD 999 ≤ 20)
    (h4 : ¬(fx.latitude < -90 ∨ 90 < fx.latitude ∨ fx.longitude < -180 ∨
        180 < fx.longitude))
    (hlast : s.positions.getLast? = some lastRaw)
    (hfl : filterLoc (filteredFix now s fx) (standardiseStored now lastRaw)
        = true)
    (hinc : 0.5 ≤ incrementFrom lastRaw (filteredFix now s fx))
    (hgoal : s.distanceGoal = some g)
    (hg : g ≤ s.distance + incrementFrom lastRaw (filteredFix now s fx)) :
    (addPosition filterLoc now s fx).1.isTracking = true ∧
    (addPosition filterLoc now s fx).1.distance
      = s.distance + incrementFrom lastRaw (filteredFix now s fx) ∧
    (addPosition filterLoc now s fx).1.positions = s.positions ∧
    (addPosition filterLoc now s fx).1.elevation = s.elevation ∧
    (addPosition filterLoc now s fx).1.splits = s.splits ∧
    (addPosition filterLoc now s fx).2
      = [Event.durationChange (((filteredFix now s fx).timestamp -
            s.startTime - s.pausedTime) / 1000),
         Event.distanceChange (s.distance +
            incrementFrom lastRaw (filteredFix now s fx)),
         Event.goalReached (s.distance +
            incrementFrom lastRaw (filteredFix now s fx)) g] := by
  obtain ⟨hs, he⟩ := addPosition_goal_case filterLoc now s fx lastRaw g
    h1 h2 h3 h4 hlast hfl hinc hgoal hg
  obtain ⟨lf, lof, af, wf, hA⟩ :=
    applyGpsFilter_fst s (standardise now fx) (fx.accuracy.getD 999)
  rw [hs, hA]
  exact ⟨h1, rfl, rfl, rfl, rfl, he⟩

/-- C10 witness: on `trackerGoal`, the 0.009° fix (increment > 1000 m ≥
goal 500 m) triggers the goal-reached early return. -/
theorem addPosition_goal_early_return_witness :
    (0.5 ≤ incrementFrom geo0 (filteredFix 60000 trackerGoal fixCross) ∧
     trackerGoal.distanceGoal = some 500 ∧
     500 ≤ trackerGoal.distance +
        incrementFrom geo0 (filteredFix 60000 trackerGoal fixCross)) ∧
    ((addPosition filterLocationSpec 60000 trackerGoal fixCross).1.isTracking
        = true ∧
     (addPosition filterLocationSpec 60000 trackerGoal fixCross).1.distance
        = trackerGoal.distance +
          incrementFrom geo0 (filteredFix 60000 trackerGoal fixCross) ∧
     (addPosition filterLocationSpec 60000 trackerGoal fixCross).1.positions
        = trackerGoal.positions ∧
     (addPosition filterLocationSpec 60000 trackerGoal fixCross).1.elevation
        = trackerGoal.elevation ∧
     (addPosition filterLocationSpec 60000 trackerGoal fixCross).1.splits
        = trackerGoal.splits ∧
     (addPosition filterLocationSpec 60000 trackerGoal fixCross).2
        = [Event.durationChange
             (((filteredFix 60000 trackerGoal fixCross).timestamp -
               trackerGoal.startTime - trackerGoal.pausedTime) / 1000),
           Event.distanceChange (trackerGoal.distance +
             incrementFrom geo0 (filteredFix 60000 trackerGoal fixCross)),
           Event.goalReached (trackerGoal.distance +
             incrementFrom geo0 (filteredFix 60000 trackerGoal fixCross))
             500]) := by
  have hff : filteredFix 60000 trackerGoal fixCross
      = ⟨0.009, 0, 5, none, 60000⟩ :=
    filteredFix_cross_eval trackerGoal rfl rfl rfl rfl
  have hb := inc_cross_bounds
  rw [hff]
  refine ⟨⟨by linarith [hb.1], rfl, ?_⟩, ?_⟩
  · show (500 : ℝ) ≤ 0 + incrementFrom geo0 (⟨0.009, 0, 5, none, 60000⟩ : GeoPos)
    linarith [hb.1]
  · have h := addPosition_goal_early_return filterLocationSpec 60000
      trackerGoal fixCross geo0 500 rfl rfl (by norm_num [fixCross])
      (by norm_num [fixCross]) (by simp [trackerGoal, trackerBase]) rfl
      (by rw [hff]; linarith [hb.1]) rfl
      (by rw [hff]; show (500:ℝ) ≤ 0 + _; linarith [hb.1])
    rw [hff] at h
    exact h

/-! ## Claim C8 -/

theorem elevSplitAndStore_splits (s : RunTracker) (evs : List Event)
    (fp : GeoPos) :
    (elevSplitAndStore s evs fp).1.splits
      = (splitUpdate { s with
          elevation := (updateElevation s.elevation fp.altitude).1 }).1.splits :=
  rfl

theorem elevSplitAndStore_lastSplit (s : RunTracker) (evs : List Event)
    (fp : GeoPos) :
    (elevSplitAndStore s evs fp).1.lastSplitDistance
      = (splitUpdate { s with
          elevation := (updateElevation s.elevation fp.altitude).1
          }).1.lastSplitDistance :=
  rfl

theorem splitUpdate_pos (s : RunTracker)
    (hC : ⌊s.lastSplitDistance / unitMeters s.distanceUnit⌋
        < ⌊s.distance / unitMeters s.distanceUnit⌋) :
    (splitUpdate s).1.splits = s.splits ++
      [⟨⌊s.distance / unitMeters s.distanceUnit⌋, s.duration,
        (s.duration - prevSplitTime s.splits) / unitMeters s.distanceUnit,
        false⟩] ∧
    (splitUpdate s).1.lastSplitDistance
      = (⌊s.distance / unitMeters s.distanceUnit⌋ : ℝ)
          * unitMeters s.distanceUnit := by
  unfold splitUpdate
  dsimp only
  rw [if_pos hC]
  exact ⟨rfl, rfl⟩

theorem splitUpdate_neg (s : RunTracker)
    (hC : ¬ ⌊s.lastSplitDistance / unitMeters s.distanceUnit⌋
        < ⌊s.distance / unitMeters s.distanceUnit⌋) :
    (splitUpdate s).1.splits = s.splits ∧
    (splitUpdate s).1.lastSplitDistance = s.lastSplitDistance := by
  unfold splitUpdate
  dsimp only
  rw [if_neg hC]
  exact ⟨rfl, rfl⟩

/-- Behaviour of the steps/elevation/split/store suffix of `addPosition` on
the splits fields: exactly one split is appended when (and only when) the
floor comparison fires. -/
theorem accept_splits_behavior (s3 : RunTracker) (evs : List Event)
    (fp : GeoPos) :
    if ⌊s3.lastSplitDistance / unitMeters s3.distanceUnit⌋
        < ⌊s3.distance / unitMeters s3.distanceUnit⌋ then
      (elevSplitAndStore (stepsUpdate s3).1 evs fp).1.splits = s3.splits ++
        [⟨⌊s3.distance / unitMeters s3.distanceUnit⌋, s3.duration,
          (s3.duration - prevSplitTime s3.splits) / unitMeters s3.distanceUnit,
          false⟩] ∧
      (elevSplitAndStore (stepsUpdate s3).1 evs fp).1.lastSplitDistance
        = (⌊s3.distance / unitMeters s3.distanceUnit⌋ : ℝ)
            * unitMeters s3.distanceUnit
    else
      (elevSplitAndStore (stepsUpdate s3).1 evs fp).1.splits = s3.splits ∧
      (elevSplitAndStore (stepsUpdate s3).1 evs fp).1.lastSplitDistance
        = s3.lastSplitDistance := by
  obtain ⟨n, hst⟩ := stepsUpdate_fst s3
  rw [hst, elevSplitAndStore_splits, elevSplitAndStore_lastSplit]
  by_cases hC : ⌊s3.lastSplitDistance / unitMeters s3.distanceUnit⌋
      < ⌊s3.distance / unitMeters s3.distanceUnit⌋
  · rw [if_pos hC]
    exact splitUpdate_pos _ hC
  · rw [if_neg hC]
    exact splitUpdate_neg _ hC

/-- When every gate passes, the fix is non-jitter and no active goal is
reached, `addPosition` runs the steps/elevation/split/store suffix on the
distance-updated state. -/
theorem addPosition_accept_case (filterLoc : GeoPos → GeoPos → Bool)
    (now : ℝ) (s : RunTracker) (fx : RawFix) (lastRaw : GeoPos)
    (h1 : s.isTracking = true) (h2 : s.isPaused = false)
    (h3 : fx.accuracy.getD 999 ≤ 20)
    (h4 : ¬(fx.latitude < -90 ∨ 90 < fx.latitude ∨ fx.longitude < -180 ∨
        180 < fx.longitude))
    (hlast : s.positions.getLast? = some lastRaw)
    (hfl : filterLoc (filteredFix now s fx) (standardiseStored now lastRaw)
        = true)
    (hinc : 0.5 ≤ incrementFrom lastRaw (filteredFix now s fx))
    (hnogoal : ∀ g, s.distanceGoal = some g →
        s.distance + incrementFrom lastRaw (filteredFix now s fx) < g) :
    addPosition filterLoc now s fx
      = elevSplitAndStore
          (stepsUpdate { (applyGpsFilter s (standardise now fx)
              (fx.accuracy.getD 999)).1 with
            duration := ((filteredFix now s fx).timestamp - s.startTime -
              s.pausedTime) / 1000,
            distance := s.distance +
              incrementFrom lastRaw (filteredFix now s fx) }).1
          ([Event.durationChange (((filteredFix now s fx).timestamp -
              s.startTime - s.pausedTime) / 1000),
            Event.distanceChange (s.distance +
              incrementFrom lastRaw (filteredFix now s fx))] ++
           (stepsUpdate { (applyGpsFilter s (standardise now fx)
              (fx.accuracy.getD 999)).1 with
            duration := ((filteredFix now s fx).timestamp - s.startTime -
              s.pausedTime) / 1000,
            distance := s.distance +
              incrementFrom lastRaw (filteredFix now s fx) }).2)
          (filteredFix now s fx) := by
  obtain ⟨lf, lof, af, wf, hA⟩ :=
    applyGpsFilter_fst s (standardise now fx) (fx.accuracy.getD 999)
  have hfl' : filterLoc
      (applyGpsFilter s (standardise now fx) (fx.accuracy.getD 999)).2
      (standardiseStored now lastRaw) = true := hfl
  have hinc' : (0.5 : ℝ) ≤ incrementFrom lastRaw
      (applyGpsFilter s (standardise now fx) (fx.accuracy.getD 999)).2 := hinc
  unfold addPosition
  dsimp only
  rw [if_neg (by rw [h1, h2]; simp), if_neg (not_lt.2 h3),
    if_neg (show ¬((standardise now fx).latitude < -90 ∨
      90 < (standardise now fx).latitude ∨
      (standardise now fx).longitude < -180 ∨
      180 < (standardise now fx).longitude) from h4),
    hlast]
  dsimp only
  rw [if_neg (by rw [hfl']; simp), if_pos hinc', hA]
  split
  · rename_i g hgoal
    have hg' : s.distanceGoal = some g := hgoal
    rw [if_neg (not_le.2 (show s.distance + incrementFrom lastRaw
      (applyGpsFilter s (standardise now fx) (fx.accuracy.getD 999)).2 < g
      from hnogoal g hg'))]
    rfl
  · rfl

/-- C8 amended: on an accepted, non-jitter fix that does not trigger the
goal-reached early return, a split is recorded iff
`floor(newDistance/unit)` exceeds `floor(lastSplitDistance/unit)`; the
recorded split carries `pace = (duration − previousSplitDuration)/unit` and
`isPartial = false`, and `lastSplitDistance` advances to
`completedUnitIndex × unit`; otherwise both fields are unchanged.  (At most
one split is recorded per fix even if several unit boundaries are crossed,
and a fix that fires the goal-reached return records none — see the
counterexample.) -/
theorem addPosition_split_iff_no_goal (filterLoc : GeoPos → GeoPos → Bool)
    (now : ℝ) (s : RunTracker) (fx : RawFix) (lastRaw : GeoPos)
    (h1 : s.isTracking = true) (h2 : s.isPaused = false)
    (h3 : fx.accuracy.getD 999 ≤ 20)
    (h4 : ¬(fx.latitude < -90 ∨ 90 < fx.latitude ∨ fx.longitude < -180 ∨
        180 < fx.longitude))
    (hlast : s.positions.getLast? = some lastRaw)
    (hfl : filterLoc (filteredFix now s fx) (standardiseStored now lastRaw)
        = true)
    (hinc : 0.5 ≤ incrementFrom lastRaw (filteredFix now s fx))
    (hnogoal : ∀ g, s.distanceGoal = some g →
        s.distance + incrementFrom lastRaw (filteredFix now s fx) < g) :
    if ⌊s.lastSplitDistance / unitMeters s.distanceUnit⌋
        < ⌊(s.distance + incrementFrom lastRaw (filteredFix now s fx))
            / unitMeters s.distanceUnit⌋ then
      (addPosition filterLoc now s fx).1.splits = s.splits ++
        [⟨⌊(s.distance + incrementFrom lastRaw (filteredFix now s fx))
             / unitMeters s.distanceUnit⌋,
          ((filteredFix now s fx).timestamp - s.startTime - s.pausedTime)
            / 1000,
          (((filteredFix now s fx).timestamp - s.startTime - s.pausedTime)
              / 1000 - prevSplitTime s.splits) / unitMeters s.distanceUnit,
          false⟩] ∧
      (addPosition filterLoc now s fx).1.lastSplitDistance
        = (⌊(s.distance + incrementFrom lastRaw (filteredFix now s fx))
              / unitMeters s.distanceUnit⌋ : ℝ) * unitMeters s.distanceUnit
    else
      (addPosition filterLoc now s fx).1.splits = s.splits ∧
      (addPosition filterLoc now s fx).1.lastSplitDistance
        = s.lastSplitDistance := by
  have hacc := addPosition_accept_case filterLoc now s fx lastRaw
    h1 h2 h3 h4 hlast hfl hinc hnogoal
  have hbeh := accept_splits_behavior
    { (applyGpsFilter s (standardise now fx) (fx.accuracy.getD 999)).1 with
      duration := ((filteredFix now s fx).timestamp - s.startTime -
        s.pausedTime) / 1000,
      distance := s.distance + incrementFrom lastRaw (filteredFix now s fx) }
    ([Event.durationChange (((filteredFix now s fx).timestamp -
        s.startTime - s.pausedTime) / 1000),
      Event.distanceChange (s.distance +
        incrementFrom lastRaw (filteredFix now s fx))] ++
     (stepsUpdate { (applyGpsFilter s (standardise now fx)
        (fx.accuracy.getD 999)).1 with
      duration := ((filteredFix now s fx).timestamp - s.startTime -
        s.pausedTime) / 1000,
      distance := s.distance +
        incrementFrom lastRaw (filteredFix now s fx) }).2)
    (filteredFix now s fx)
  rw [← hacc] at hbeh
  obtain ⟨lf, lof, af, wf, hA⟩ :=
    applyGpsFilter_fst s (standardise now fx) (fx.accuracy.getD 999)
  rw [hA] at hbeh
  exact hbeh

/-- C8 counterexample: the 0.009° fix is accepted and non-jitter
(increment ≈ 1000.7 m ≥ 0.5 m, distance visibly accumulates), the floor
comparison fires (900 m → ≈1900.7 m crosses the 1000 m boundary), yet NO
split is recorded — the goal-reached early return (goal 1500 m ≤ new
distance) skips split evaluation.  This refutes the claimed "if and only
if". -/
theorem split_skipped_on_goal_crossing_cex :
    0.5 ≤ incrementFrom geo0 (filteredFix 60000 trackerC8 fixCross) ∧
    ⌊trackerC8.lastSplitDistance / unitMeters trackerC8.distanceUnit⌋
      < ⌊(trackerC8.distance +
          incrementFrom geo0 (filteredFix 60000 trackerC8 fixCross))
            / unitMeters trackerC8.distanceUnit⌋ ∧
    (addPosition filterLocationSpec 60000 trackerC8 fixCross).1.distance
      = trackerC8.distance +
        incrementFrom geo0 (filteredFix 60000 trackerC8 fixCross) ∧
    (addPosition filterLocationSpec 60000 trackerC8 fixCross).1.splits
      = [] := by
  have hff : filteredFix 60000 trackerC8 fixCross
      = ⟨0.009, 0, 5, none, 60000⟩ :=
    filteredFix_cross_eval trackerC8 rfl rfl rfl rfl
  have hb := inc_cross_bounds
  obtain ⟨hs, he⟩ := addPosition_goal_case filterLocationSpec 60000 trackerC8
    fixCross geo0 1500 rfl rfl (by norm_num [fixCross])
    (by norm_num [fixCross]) (by simp [trackerC8, trackerBase]) rfl
    (by rw [hff]; linarith [hb.1]) rfl
    (by rw [hff]
        show (1500 : ℝ) ≤ 900 + _
        linarith [hb.1])
  obtain ⟨lf, lof, af, wf, hA⟩ := applyGpsFilter_fst trackerC8
    (standardise 60000 fixCross) (fixCross.accuracy.getD 999)
  refine ⟨?_, ?_, ?_, ?_⟩
  · rw [hff]
    linarith [hb.1]
  · rw [hff]
    have hz : ⌊trackerC8.lastSplitDistance
        / unitMeters trackerC8.distanceUnit⌋ = 0 := by
      norm_num [trackerC8, trackerBase, unitMeters]
    have ho : 1 ≤ ⌊(trackerC8.distance +
        incrementFrom geo0 (⟨0.009, 0, 5, none, 60000⟩ : GeoPos))
          / unitMeters trackerC8.distanceUnit⌋ := by
      rw [Int.le_floor]
      have hu : unitMeters trackerC8.distanceUnit = 1000 := rfl
      have hd : trackerC8.distance = 900 := rfl
      rw [hu, hd, le_div_iff₀ (by norm_num : (0:ℝ) < 1000)]
      push_cast
      linarith [hb.1]
    omega
  · rw [hff] at hs
    rw [hff, hs]
  · rw [hff] at hs
    rw [hs, hA]
    rfl

/-- C8 witness: with no goal set, the same boundary-crossing fix records
exactly one split with the specified index, pace and `isPartial = false`,
and advances `lastSplitDistance` to the completed unit. -/
theorem addPosition_split_iff_no_goal_witness :
    0.5 ≤ incrementFrom geo0 (filteredFix 60000 trackerW8 fixCross) ∧
    (addPosition filterLocationSpec 60000 trackerW8 fixCross).1.splits
      = trackerW8.splits ++
        [⟨⌊(trackerW8.distance +
            incrementFrom geo0 (filteredFix 60000 trackerW8 fixCross))
              / unitMeters trackerW8.distanceUnit⌋,
          ((filteredFix 60000 trackerW8 fixCross).timestamp -
            trackerW8.startTime - trackerW8.pausedTime) / 1000,
          (((filteredFix 60000 trackerW8 fixCross).timestamp -
              trackerW8.startTime - trackerW8.pausedTime) / 1000 -
            prevSplitTime trackerW8.splits) / unitMeters trackerW8.distanceUnit,
          false⟩] ∧
    (addPosition filterLocationSpec 60000 trackerW8 fixCross).1.lastSplitDistance
      = (⌊(trackerW8.distance +
            incrementFrom geo0 (filteredFix 60000 trackerW8 fixCross))
              / unitMeters trackerW8.distanceUnit⌋ : ℝ)
          * unitMeters trackerW8.distanceUnit := by
  have hff : filteredFix 60000 trackerW8 fixCross
      = ⟨0.009, 0, 5, none, 60000⟩ :=
    filteredFix_cross_eval trackerW8 rfl rfl rfl rfl
  have hb := inc_cross_bounds
  have hcond : ⌊trackerW8.lastSplitDistance
      / unitMeters trackerW8.distanceUnit⌋
      < ⌊(trackerW8.distance +
          incrementFrom geo0 (filteredFix 60000 trackerW8 fixCross))
            / unitMeters trackerW8.distanceUnit⌋ := by
    rw [hff]
    have hz : ⌊trackerW8.lastSplitDistance
        / unitMeters trackerW8.distanceUnit⌋ = 0 := by
      norm_num [trackerW8, trackerBase, unitMeters]
    have ho : 1 ≤ ⌊(trackerW8.distance +
        incrementFrom geo0 (⟨0.009, 0, 5, none, 60000⟩ : GeoPos))
          / unitMeters trackerW8.distanceUnit⌋ := by
      rw [Int.le_floor]
      have hu : unitMeters trackerW8.distanceUnit = 1000 := rfl
      have hd : trackerW8.distance = 900 := rfl
      rw [hu, hd, le_div_iff₀ (by norm_num : (0:ℝ) < 1000)]
      push_cast
      linarith [hb.1]
    omega
  have h := addPosition_split_iff_no_goal filterLocationSpec 60000 trackerW8
    fixCross geo0 rfl rfl (by norm_num [fixCross]) (by norm_num [fixCross])
    (by simp [trackerW8, trackerBase]) rfl (by rw [hff]; linarith [hb.1])
    (by intro g hg
        exact absurd hg (by simp [trackerW8, trackerBase]))
  rw [if_pos hcond] at h
  exact ⟨by rw [hff]; linarith [hb.1], h.1, h.2⟩

/-! ## Claims C3, C4, C6, C7 -/

/-- C3: for the 1-D Kalman filter, the first `filter(m)` call after
construction or `reset()` sets the state to `m` and returns `m` with `P`
left at 1; every subsequent `filter(m)` call computes `P_pred = P + Q`,
`K = P_pred / (P_pred + R)`, `x = x + K·(m − x)`, `P = (1 − K)·P_pred` and
returns the new `x`; and `adjustParameters(accuracy)` sets
`R = max(0.001, accuracy/20)`. -/
theorem kalman1d_step_spec (q r p k x0 m acc : ℚ) :
    (KalmanFilter1D.init q r).filter m = (m, ⟨q, r, some m, 1, 0⟩) ∧
    (KalmanFilter1D.reset ⟨q, r, some x0, p, k⟩).filter m
      = (m, ⟨q, r, some m, 1, 0⟩) ∧
    KalmanFilter1D.filter ⟨q, r, some x0, p, k⟩ m
      = (x0 + ((p + q) / ((p + q) + r)) * (m - x0),
         ⟨q, r, some (x0 + ((p + q) / ((p + q) + r)) * (m - x0)),
          (1 - (p + q) / ((p + q) + r)) * (p + q),
          (p + q) / ((p + q) + r)⟩) ∧
    KalmanFilter1D.adjustParameters ⟨q, r, some x0, p, k⟩ acc
      = ⟨q, max (1 / 1000) (acc / 20), some x0, p, k⟩ := by
  refine ⟨rfl, rfl, ?_, rfl⟩
  simp [KalmanFilter1D.filter]

/-- C4: `adjustParameters` clamps the measurement noise to `R ≥ 0.001` (in
particular at accuracy 0 it yields exactly 0.001), but the weighted-average
strategy is NOT guarded: for a window holding a single reading with
`accuracy = 0` the `totalWeight` denominator used by `getWeightedAverage`
is the unguarded `1/(0·0)` sum — exhibited here as the zero denominator
(in JavaScript, `1/0 = Infinity` and the resulting mean is `NaN`). -/
theorem weighted_filter_zero_accuracy_divides_by_zero :
    (∀ (f : KalmanFilter1D ℚ) (acc : ℚ),
        (1 : ℚ) / 1000 ≤ (f.adjustParameters acc).R) ∧
    ((KalmanFilter1D.init (3 : ℚ) (1 / 100)).adjustParameters 0).R = 1 / 1000 ∧
    WeightedGPSFilter.totalWeight
      (⟨5, [⟨37, -122, 0, 0⟩]⟩ : WeightedGPSFilter ℚ) = 0 := by
  refine ⟨fun f acc => le_max_left _ _, ?_, ?_⟩
  · simp [KalmanFilter1D.init, KalmanFilter1D.adjustParameters]
  · simp [WeightedGPSFilter.totalWeight]

/-- C6: for every combination of activity type, measured speed, battery
level, distance-goal proximity and app-visibility input, the adaptive
sampling computation returns an interval within [3000, 60000] ms. -/
theorem sampling_interval_clamped (a : ActivityType) (speedMps : ℚ)
    (batteryLevel : Option ℚ) (distanceGoal : Option ℚ) (distance : ℚ)
    (documentHidden : Bool) :
    3000 ≤ calculateOptimalSamplingInterval a speedMps batteryLevel
             distanceGoal distance documentHidden ∧
    calculateOptimalSamplingInterval a speedMps batteryLevel
             distanceGoal distance documentHidden ≤ 60000 := by
  constructor
  · exact le_max_left _ _
  · exact max_le (by norm_num) (min_le_left _ _)

/-- C7 (code bug): the `else if` ordering makes the critical-battery ×2
branch unreachable.  At battery 10% (which the claim says should double the
speed-adjusted 10000 ms interval to 20000 ms) the code multiplies by 1.5,
producing 15000 ms. -/
theorem battery_double_branch_unreachable :
    calculateOptimalSamplingInterval ActivityType.run 1 (some 10) none 0 false
      = 15000 ∧
    batteryAdjusted 10000 (some 10) = 15000 ∧
    batteryAdjusted 10000 (some 10) ≠ 2 * 10000 := by
  refine ⟨?_, ?_, ?_⟩ <;>
    norm_num [calculateOptimalSamplingInterval, visibilityAdjusted,
      goalAdjusted, batteryAdjusted, speedAdjusted, baseIntervalFor]

end Runstr

